import Mathlib

/-!
Shallow embedding of the weather-dashboard client logic
(aiiotmeity/weather_forecasting) and proofs about the claims of its
specification.  The repository holds several revisions of the same React
dashboard; the fetch / polling / validation logic of each revision is
embedded as pure Lean functions over explicit component state:

  - `appFetchWeatherData`      : src/frontend/src/App.js, fetchWeatherData (530-559)
  - `part000_fetchWeatherData` : src/unnamed/part_000, fetchWeatherData (739-769)
  - `part002_fetchWeatherData` : src/unnamed/part_002, fetchWeatherData (324-339)
  - `runEffects` / `effectRun` : src/unnamed/part_000, polling useEffect (781-793)
  - `weatherDisplay`           : src/frontend/src/App.js, WeatherDisplay (184-280)
  - `validateForm`, `validateAndSubmitModel` : src/frontend/src/App.js (304-335)

React `useState` triples become record fields, a fetch's asynchronous run is
split into its synchronous start phase and its completion phase (the code
between `await` resumption and the end of `finally`), and network results are
an explicit outcome datatype.
-/

/-- Station status as used in the `weatherStations` arrays: the string
values are "active" and "development". -/
inductive StationStatus where
  | active
  | development
deriving DecidableEq, Repr

/-- A station descriptor.  The source records also carry `name`, `location`,
`coordinates` (floating point) and `description`; the fetch logic only ever
consults `id` and `status`, so only those are embedded. -/
structure Station where
  id : String
  status : StationStatus
deriving DecidableEq, Repr

/-- The station list of src/unnamed/part_000 lines 21-38 (identical ids and
statuses in src/frontend/src/Homepage.js lines 433-447). -/
def weatherStations : List Station :=
  [ { id := "weather-v2", status := StationStatus.active },
    { id := "station-Airport Road", status := StationStatus.development } ]

/-- A parsed weather response body.  The code stores the parsed JSON object
opaquely via `setWeatherData(data)`; the claims only inspect `temperature`,
so the body is embedded as a record of the numeric fields the claims use. -/
structure WeatherData where
  temperature : Int
  humidity : Int
deriving DecidableEq, Repr

/-- The React state triple `weatherData` / `loading` / `error` shared by the
weather components of every revision. -/
structure WeatherState where
  weatherData : Option WeatherData
  loading : Bool
  error : Option String
deriving DecidableEq, Repr

/-- Outcome of one HTTP round trip for revisions without an abort guard:
either an ok response with a parsed body, a non-ok HTTP status, or a
rejected fetch promise carrying the thrown message. -/
inductive FetchOutcome where
  | ok (body : WeatherData)
  | httpError (status : Nat)
  | networkError (message : String)
deriving DecidableEq, Repr

/-- Whether `needle` occurs as a contiguous sublist of `l`. -/
def listContainsSub (l needle : List Char) : Bool :=
  match l with
  | [] => needle.isEmpty
  | _ :: tl => needle.isPrefixOf l || listContainsSub tl needle

/-- JavaScript `String.prototype.includes`: substring containment. -/
def jsIncludes (s needle : String) : Bool :=
  listContainsSub s.toList needle.toList

/-- The under-development message of part_000 fetchWeatherData line 744. -/
def part000_devMessage : String :=
  "This station is currently under development and not providing live data."

/-- The connection-failure message of part_000 line 761. -/
def part000_connMessage : String :=
  "Unable to connect to weather station. Please check your internet connection."

/-- The generic failure message of part_000 line 762. -/
def part000_stationMessage : String :=
  "Failed to fetch weather data from the station."

/-- Whether the station found for `sid` has status development
(part_000 line 742: `station?.status === 'development'`, where `station`
is `weatherStations.find(s => s.id === stationId)`). -/
def part000_isDevStation (stations : List Station) (sid : String) : Bool :=
  match stations.find? (fun st => st.id == sid) with
  | some st => st.status == StationStatus.development
  | none => false

/-- Synchronous start phase of part_000 fetchWeatherData (lines 739-749):
the development-station short circuit and the optional loader toggle.
The second component records whether execution proceeds to the HTTP
request (`false` on the development branch, which returns early). -/
def part000_fetchStart (stations : List Station) (stationId : String)
    (showLoader : Bool) (s : WeatherState) : WeatherState × Bool :=
  if part000_isDevStation stations stationId then
    ({ weatherData := none, loading := false, error := some part000_devMessage }, false)
  else
    (if showLoader then { s with loading := true } else s, true)

/-- The error message computed in part_000's catch block (lines 759-765):
the thrown message is tested with `includes('fetch')`.  A non-ok response
throws `HTTP <status>: Failed to fetch data` (line 753). -/
def part000_errorMessageFor : FetchOutcome → String
  | FetchOutcome.ok _ => ""
  | FetchOutcome.httpError status =>
      if jsIncludes ("HTTP " ++ toString status ++ ": Failed to fetch data") "fetch"
      then part000_connMessage else part000_stationMessage
  | FetchOutcome.networkError m =>
      if jsIncludes m "fetch" then part000_connMessage else part000_stationMessage

/-- Completion phase of part_000 fetchWeatherData (lines 751-768): the state
updates applied when the request settles — success stores the body and
clears the error, failure stores the catch-block message, and `finally`
clears the loader only when `showLoader` is set. -/
def part000_fetchComplete (showLoader : Bool) (o : FetchOutcome)
    (s : WeatherState) : WeatherState :=
  let after :=
    match o with
    | FetchOutcome.ok d => { s with weatherData := some d, error := none }
    | o2 => { s with error := some (part000_errorMessageFor o2) }
  if showLoader then { after with loading := false } else after

/-- A whole non-overlapped run of part_000 fetchWeatherData: start phase
followed, when it proceeds, by the completion phase for outcome `o`.
The second component records whether an HTTP request was performed. -/
def part000_fetchWeatherData (stations : List Station) (stationId : String)
    (showLoader : Bool) (o : FetchOutcome) (s : WeatherState) :
    WeatherState × Bool :=
  let started := part000_fetchStart stations stationId showLoader s
  if started.2 then (part000_fetchComplete showLoader o started.1, true)
  else (started.1, false)

/-- One tick of part_000's 30 s polling interval (lines 783-785), which calls
`fetchWeatherData(currentStationId, false)` — a silent refresh. -/
def part000_intervalTick (stations : List Station) (stationId : String)
    (o : FetchOutcome) (s : WeatherState) : WeatherState × Bool :=
  part000_fetchWeatherData stations stationId false o s

/-- Folding the completion phase over responses in their arrival order:
part_000 performs no cancellation, so each arriving response of an
overlapped set of requests applies its completion-phase update in turn. -/
def part000_applyArrivals (showLoader : Bool) (arrivals : List FetchOutcome)
    (s : WeatherState) : WeatherState :=
  arrivals.foldl (fun st o => part000_fetchComplete showLoader o st) s

/-- Outcome of one guarded round trip in App.js / part_001: these revisions
attach an AbortController, so an aborted request (`AbortError`) is a
distinct outcome. -/
inductive AppOutcome where
  | ok (body : WeatherData)
  | httpError (status : Nat) (statusText : String)
  | networkError (message : String)
  | abortError
deriving DecidableEq, Repr

/-- The timeout message of App.js fetchWeatherData line 551. -/
def appTimeoutMessage : String := "Request timeout - Please check your connection"

/-- The error stored by App.js's catch block (lines 549-555): `AbortError`
maps to the timeout message, anything else to `Connection failed: ` plus the
thrown message; a non-ok response throws `HTTP <status>: <statusText>`
(line 543); success stores no error. -/
def appErrorMessage : AppOutcome → Option String
  | AppOutcome.ok _ => none
  | AppOutcome.httpError status statusText =>
      some ("Connection failed: HTTP " ++ toString status ++ ": " ++ statusText)
  | AppOutcome.networkError m => some ("Connection failed: " ++ m)
  | AppOutcome.abortError => some appTimeoutMessage

/-- App.js initial component state (lines 520-522): `weatherData` null,
`loading` initialized to `true`, `error` null. -/
def appInitialState : WeatherState :=
  { weatherData := none, loading := true, error := none }

/-- Synchronous start phase of App.js fetchWeatherData (line 532):
`setLoading(true)` unconditionally — the function has no silent mode. -/
def appFetchStart (s : WeatherState) : WeatherState :=
  { s with loading := true }

/-- Completion phase of App.js fetchWeatherData (lines 536-558): success
stores the body and clears the error, failure stores the classified
message, and `finally` always clears the loader. -/
def appFetchComplete (o : AppOutcome) (s : WeatherState) : WeatherState :=
  let after :=
    match o with
    | AppOutcome.ok d => { s with weatherData := some d, error := none }
    | o2 => { s with error := appErrorMessage o2 }
  { after with loading := false }

/-- A whole non-overlapped run of App.js fetchWeatherData for outcome `o`. -/
def appFetchWeatherData (o : AppOutcome) (s : WeatherState) : WeatherState :=
  appFetchComplete o (appFetchStart s)

/-- App.js polling period (line 563: `setInterval(fetchWeatherData, 30000)`). -/
def appPollIntervalMs : Nat := 30000

/-- Timeout guard of App.js fetchWeatherData: line 534 arms
`setTimeout(() => controller.abort(), 8000)` on an AbortController whose
signal is passed to fetch. -/
def appTimeoutGuardMs : Option Nat := some 8000

/-- Timeout guard of part_001 fetchWeatherData (lines 759-788, identical to
App.js: an 8000 ms abort guard). -/
def part001TimeoutGuardMs : Option Nat := some 8000

/-- Timeout guard of part_000 fetchWeatherData: none — the fetch at line 752
is called without a signal and no abort timer exists. -/
def part000TimeoutGuardMs : Option Nat := none

/-- Timeout guard of part_002 fetchWeatherData: none — the fetch at line 326
is called without a signal and no abort timer exists. -/
def part002TimeoutGuardMs : Option Nat := none

/-- Timeout guard of the Homepage.js revision's fetchWeatherData (line 621):
none — plain fetch with no signal. -/
def homepageTimeoutGuardMs : Option Nat := none

/-- part_002 fetchWeatherData (lines 324-339): success stores the body,
sets loading false and clears the error; every failure (non-ok status or
thrown error alike) stores the single message `Failed to fetch` and sets
loading false.  No outcome is classified as a timeout. -/
def part002_fetchWeatherData (o : FetchOutcome) (s : WeatherState) : WeatherState :=
  match o with
  | FetchOutcome.ok d =>
      { s with weatherData := some d, loading := false, error := none }
  | _ => { s with error := some "Failed to fetch", loading := false }

/-- Events of App.js's loading indicator: a fetch is initiated (its
synchronous prefix runs `setLoading(true)`, line 532) or a fetch completes
(its `finally` runs `setLoading(false)`, line 557). -/
inductive AppFetchEvent where
  | start
  | complete (o : AppOutcome)
deriving DecidableEq, Repr

/-- Effect of one fetch event on the App.js `loading` flag. -/
def appLoadingStep (_ : Bool) : AppFetchEvent → Bool
  | AppFetchEvent.start => true
  | AppFetchEvent.complete _ => false

/-- The App.js `loading` flag after a trace of fetch events, starting from
its initial value `true` (line 521: `useState(true)`). -/
def appLoadingAfter (tr : List AppFetchEvent) : Bool :=
  tr.foldl appLoadingStep true

/-- State of part_000's interval machinery: the set of live interval timers
(id paired with the station key its callback polls), the content of
`refreshIntervalRef`, and the id the next `setInterval` call allocates
(ids start at 1, so a stored id is always truthy in the JS sense). -/
structure TimerSys where
  timers : List (Nat × String)
  refCur : Option Nat
  nextId : Nat
deriving DecidableEq, Repr

/-- Initial timer state: no timers, `refreshIntervalRef.current` null. -/
def timerInit : TimerSys := { timers := [], refCur := none, nextId := 1 }

/-- The effect cleanup of part_000 lines 788-792: if
`refreshIntervalRef.current` is set, `clearInterval` it.  The ref is not
nulled; clearing an id that is no longer live is a no-op. -/
def effectCleanup (s : TimerSys) : TimerSys :=
  match s.refCur with
  | some tid => { s with timers := s.timers.filter (fun t => !(t.1 == tid)) }
  | none => s

/-- Whether the station found for `sid` has status active
(part_000 line 782: `currentStation?.status === 'active'`). -/
def stationIsActive (stations : List Station) (sid : String) : Bool :=
  match stations.find? (fun st => st.id == sid) with
  | some st => st.status == StationStatus.active
  | none => false

/-- The effect body of part_000 lines 781-786: when a station key is set and
the station is active, start an interval polling that key and store its id
in the ref. -/
def effectSetup (stations : List Station) (key : Option String)
    (s : TimerSys) : TimerSys :=
  match key with
  | some sid =>
      if stationIsActive stations sid then
        { timers := s.timers ++ [(s.nextId, sid)],
          refCur := some s.nextId, nextId := s.nextId + 1 }
      else s
  | none => s

/-- One re-run of the interval effect after its dependencies change: React
runs the previous effect's cleanup before the new effect body. -/
def effectRun (stations : List Station) (key : Option String)
    (s : TimerSys) : TimerSys :=
  effectSetup stations key (effectCleanup s)

/-- The timer state after the interval effect has run for each station key
of `keys` in order, starting from a freshly mounted component. -/
def runEffects (stations : List Station) (keys : List (Option String)) : TimerSys :=
  keys.foldl (fun s k => effectRun stations k s) timerInit

/-- Unmount teardown: React runs the last effect's cleanup. -/
def timerTeardown (s : TimerSys) : TimerSys := effectCleanup s

/-- Invariant of the interval machinery: either no timer is live, or exactly
one is and the ref holds its id. -/
def timerInv (s : TimerSys) : Prop :=
  s.timers = [] ∨ ∃ tid key, s.refCur = some tid ∧ s.timers = [(tid, key)]

/-- The spec's FetchState record (spec section 3), including the
`lastUpdatedAt` timestamp the spec describes. -/
structure FetchState where
  data : Option WeatherData
  loading : Bool
  error : Option String
  lastUpdatedAt : Option Nat
deriving DecidableEq, Repr

/-- Modelled from the spec's words (section 4.1): a successful refresh
replaces `data`, clears `error`, and stamps `lastUpdatedAt` with the
completion time. -/
def specSuccessRefresh (d : WeatherData) (now : Nat) (s : FetchState) : FetchState :=
  { s with data := some d, error := none, loading := false,
           lastUpdatedAt := some now }

/-- The App.js success path (lines 546-548 plus the `finally`) lifted to the
spec's FetchState: the code sets `weatherData`, clears `error` and clears
`loading`; it maintains no timestamp anywhere, so `lastUpdatedAt` is left
unchanged. -/
def appSuccessRefresh (d : WeatherData) (_now : Nat) (s : FetchState) : FetchState :=
  { s with data := some d, error := none, loading := false }

/-- The three mutually exclusive renderings of App.js WeatherDisplay
(lines 184-280): the loading spinner, the error banner (error branch,
lines 196-215, which renders no weather items), or the weather items. -/
inductive WeatherView where
  | loadingView
  | errorView (message : String)
  | dataView (d : WeatherData)
deriving DecidableEq, Repr

/-- App.js WeatherDisplay render logic: `if (loading)` the spinner;
`if (error || !data)` the banner showing `error || 'No data available'`;
otherwise the weather items for `data`.  (All error strings produced by the
code are non-empty, so JS truthiness of `error` is `error != null`.) -/
def weatherDisplay (data : Option WeatherData) (loading : Bool)
    (error : Option String) : WeatherView :=
  if loading then WeatherView.loadingView
  else
    match error with
    | some e => WeatherView.errorView e
    | none =>
        match data with
        | none => WeatherView.errorView "No data available"
        | some d => WeatherView.dataView d

/-- Whether a rendered view contains the weather data items. -/
def viewShowsData : WeatherView → Bool
  | WeatherView.dataView _ => true
  | _ => false

/-- Days in a month under the proleptic Gregorian rules JavaScript's Date
applies to ISO `YYYY-MM-DD` strings. -/
def daysInMonth (y m : Nat) : Nat :=
  if m = 2 then (if (y % 4 = 0 ∧ y % 100 ≠ 0) ∨ y % 400 = 0 then 29 else 28)
  else if m = 4 ∨ m = 6 ∨ m = 9 ∨ m = 11 then 30 else 31

/-- The numeric value of `new Date(s)` for the strings a date input yields:
a valid `YYYY-MM-DD` string maps to `some` of an order-preserving encoding
(y*10000 + m*100 + d orders exactly as the UTC timestamp does for such
strings); anything else maps to `none` (an Invalid Date, NaN valueOf). -/
def jsDateValue (s : String) : Option Int :=
  match s.toList with
  | [y1, y2, y3, y4, h1, m1, m2, h2, d1, d2] =>
      if h1 = '-' ∧ h2 = '-' ∧ y1.isDigit ∧ y2.isDigit ∧ y3.isDigit ∧
         y4.isDigit ∧ m1.isDigit ∧ m2.isDigit ∧ d1.isDigit ∧ d2.isDigit then
        let y := (y1.toNat - 48) * 1000 + (y2.toNat - 48) * 100 +
                 (y3.toNat - 48) * 10 + (y4.toNat - 48)
        let mo := (m1.toNat - 48) * 10 + (m2.toNat - 48)
        let d := (d1.toNat - 48) * 10 + (d2.toNat - 48)
        if 1 ≤ mo ∧ mo ≤ 12 ∧ 1 ≤ d ∧ d ≤ daysInMonth y mo then
          some (Int.ofNat (y * 10000 + mo * 100 + d))
        else none
      else none
  | _ => none

/-- JavaScript `>` on two Date values: numeric comparison, false whenever
either side is NaN (an Invalid Date). -/
def jsDateGt : Option Int → Option Int → Bool
  | some a, some b => decide (a > b)
  | _, _ => false

/-- JavaScript `\S` (non-whitespace) on the characters relevant here; the
common JS whitespace characters are listed. -/
def jsNonSpace (c : Char) : Bool :=
  !(c == ' ' || c == '\t' || c == '\n' || c == '\r' ||
    c == '\x0B' || c == '\x0C' || c == ' ')

/-- The unanchored test of the App.js email pattern (line 309):
a string passes exactly when some substring has the shape
nonspace-run, `@`, nonspace-run, `.`, nonspace-run — equivalently, when a
literal `@` at index `a` and a literal `.` at index `b > a + 1` exist with a
non-space character just before the `@`, only non-space characters strictly
between them, and a non-space character just after the `.`. -/
def emailRegexTest (s : String) : Bool :=
  let cs := s.toList
  let n := cs.length
  (List.range n).any fun a =>
    (List.range n).any fun b =>
      decide (1 ≤ a) && decide (a + 2 ≤ b) && decide (b + 1 < n) &&
      (cs.getD a ' ' == '@') && (cs.getD b ' ' == '.') &&
      jsNonSpace (cs.getD (a - 1) ' ') && jsNonSpace (cs.getD (b + 1) ' ') &&
      ((List.range' (a + 1) (b - (a + 1))).all fun k => jsNonSpace (cs.getD k ' '))

/-- The App.js data-request form state (lines 284-291). -/
structure FormData where
  email : String
  organization : String
  start_date : String
  end_date : String
  data_type : String
  purpose : String
deriving DecidableEq, Repr

/-- App.js validateForm (lines 304-329): the errors object built from the
four checks, as an association list (the end-date checks are mutually
exclusive, so no key is ever written twice). -/
def validateForm (f : FormData) : List (String × String) :=
  (if f.email = "" then [("email", "Email is required")]
   else if emailRegexTest f.email then []
   else [("email", "Email is invalid")])
  ++ (if f.start_date = "" then [("start_date", "Start date is required")] else [])
  ++ (if f.end_date = "" then [("end_date", "End date is required")] else [])
  ++ (if f.start_date ≠ "" ∧ f.end_date ≠ "" ∧
         jsDateGt (jsDateValue f.start_date) (jsDateValue f.end_date) = true
      then [("end_date", "End date must be after start date")] else [])

/-- App.js validateAndSubmit (lines 331-335): run validateForm, store the
errors, and call `onSubmit(formData)` exactly when the errors object is
empty.  The result pairs the stored errors with the submitted payload
(`none` when no submission occurred). -/
def validateAndSubmitModel (f : FormData) : List (String × String) × Option FormData :=
  let errs := validateForm f
  if errs.length = 0 then (errs, some f) else (errs, none)

/-- A concrete well-formed form input. -/
def sampleFormData : FormData :=
  { email := "a@b.c", organization := "", start_date := "2024-01-01",
    end_date := "2024-01-02", data_type := "all", purpose := "" }

/-- Whether an App.js fetch outcome is the success case. -/
def appOutcomeOk : AppOutcome → Bool
  | AppOutcome.ok _ => true
  | _ => false

/-! Helper lemmas shared across the claim theorems. -/

theorem getLast?_append_singleton {α : Type} (l : List α) (a : α) :
    (l ++ [a]).getLast? = some a := by
  simp

theorem effectCleanup_timers_eq_nil (s : TimerSys) (h : timerInv s) :
    (effectCleanup s).timers = [] := by
  rcases h with h | ⟨tid, key, h1, h2⟩
  · unfold effectCleanup
    split <;> simp [h]
  · unfold effectCleanup
    rw [h1]
    simp [h2]

theorem effectSetup_spec (stations : List Station) (key : Option String)
    (s : TimerSys) (h : s.timers = []) :
    timerInv (effectSetup stations key s) ∧
    ∀ p ∈ (effectSetup stations key s).timers, key = some p.2 := by
  cases key with
  | none => exact ⟨Or.inl h, by simp [effectSetup, h]⟩
  | some sid =>
    by_cases ha : stationIsActive stations sid = true
    · constructor
      · right
        refine ⟨s.nextId, sid, ?_, ?_⟩ <;> simp [effectSetup, ha, h]
      · intro p hp
        simp [effectSetup, ha, h] at hp
        rw [hp]
    · constructor
      · exact Or.inl (by simp [effectSetup, ha, h])
      · intro p hp
        simp [effectSetup, ha, h] at hp

theorem effectRun_spec (stations : List Station) (key : Option String)
    (s : TimerSys) (h : timerInv s) :
    timerInv (effectRun stations key s) ∧
    ∀ p ∈ (effectRun stations key s).timers, key = some p.2 :=
  effectSetup_spec stations key _ (effectCleanup_timers_eq_nil s h)

theorem timerInv_length (s : TimerSys) (h : timerInv s) : s.timers.length ≤ 1 := by
  rcases h with h | ⟨tid, key, _, h2⟩
  · simp [h]
  · simp [h2]

theorem foldl_effectRun_spec (stations : List Station) :
    ∀ (keys : List (Option String)) (s : TimerSys) (k : Option String),
      timerInv s → keys.getLast? = some k →
      timerInv (keys.foldl (fun t kk => effectRun stations kk t) s) ∧
      ∀ p ∈ (keys.foldl (fun t kk => effectRun stations kk t) s).timers,
        k = some p.2 := by
  intro keys
  induction keys with
  | nil => intro s k _ hlast; simp at hlast
  | cons k0 rest ih =>
    intro s k hinv hlast
    cases rest with
    | nil =>
      simp at hlast
      subst hlast
      exact effectRun_spec stations k0 s hinv
    | cons k1 rest2 =>
      rw [List.getLast?_cons_cons] at hlast
      exact ih (effectRun stations k0 s) k (effectRun_spec stations k0 s hinv).1 hlast

/-- C1: a failing refresh of App.js fetchWeatherData (non-ok status, network
error, or abort) leaves the previously held `weatherData` unchanged and
stores a non-null error; in particular, after a success with temperature 24
followed by a failing fetch on the next 30000 ms tick, the state still holds
temperature 24 alongside a non-null error. -/
theorem app_refresh_failure_preserves_data (s : WeatherState) (o : AppOutcome)
    (h : appOutcomeOk o = false) :
    (appFetchWeatherData o s).weatherData = s.weatherData ∧
    (appFetchWeatherData o s).error.isSome = true ∧
    appPollIntervalMs = 30000 ∧
    (appFetchWeatherData (AppOutcome.networkError "Failed to fetch")
        (appFetchWeatherData (AppOutcome.ok { temperature := 24, humidity := 60 })
          appInitialState)).weatherData
      = some { temperature := 24, humidity := 60 } ∧
    (appFetchWeatherData (AppOutcome.networkError "Failed to fetch")
        (appFetchWeatherData (AppOutcome.ok { temperature := 24, humidity := 60 })
          appInitialState)).error.isSome = true := by
  cases o with
  | ok d => simp [appOutcomeOk] at h
  | httpError status statusText => exact ⟨rfl, rfl, rfl, by decide, by decide⟩
  | networkError m => exact ⟨rfl, rfl, rfl, by decide, by decide⟩
  | abortError => exact ⟨rfl, rfl, rfl, by decide, by decide⟩

/-- Witness for C1: the theorem applied to the initial state and an aborted
request. -/
theorem app_refresh_failure_preserves_data_witness :
    (appFetchWeatherData AppOutcome.abortError appInitialState).weatherData
      = appInitialState.weatherData ∧
    (appFetchWeatherData AppOutcome.abortError appInitialState).error.isSome = true ∧
    appPollIntervalMs = 30000 ∧
    (appFetchWeatherData (AppOutcome.networkError "Failed to fetch")
        (appFetchWeatherData (AppOutcome.ok { temperature := 24, humidity := 60 })
          appInitialState)).weatherData
      = some { temperature := 24, humidity := 60 } ∧
    (appFetchWeatherData (AppOutcome.networkError "Failed to fetch")
        (appFetchWeatherData (AppOutcome.ok { temperature := 24, humidity := 60 })
          appInitialState)).error.isSome = true :=
  app_refresh_failure_preserves_data appInitialState AppOutcome.abortError rfl

/-- C2 counterexample: part_000 fetchWeatherData (739-769) has no
AbortController and no generation counter.  Two refresh calls issued close
together both proceed (the second does not cancel the first), and when the
second call's response arrives first, the first call's response overwrites
it: the final state holds temperature 10 (the first call's body), not the
second call's temperature 20 — refuting "only the second call's response is
reflected in the final state regardless of the order in which the responses
arrive". -/
theorem part000_overlapping_refresh_counterexample :
    ((part000_fetchStart weatherStations "weather-v2" true
        { weatherData := none, loading := false, error := none }).2 = true) ∧
    ((part000_fetchStart weatherStations "weather-v2" true
        (part000_fetchStart weatherStations "weather-v2" true
          { weatherData := none, loading := false, error := none }).1).2 = true) ∧
    (part000_fetchComplete true (FetchOutcome.ok { temperature := 10, humidity := 50 })
        (part000_fetchComplete true (FetchOutcome.ok { temperature := 20, humidity := 60 })
          (part000_fetchStart weatherStations "weather-v2" true
            (part000_fetchStart weatherStations "weather-v2" true
              { weatherData := none, loading := false, error := none }).1).1)).weatherData
      = some { temperature := 10, humidity := 50 } ∧
    decide (({ temperature := 10, humidity := 50 } : WeatherData) =
            { temperature := 20, humidity := 60 }) = false := by
  decide

/-- C2 amended: part_000 performs no cancellation and keeps no generation
counter; each completion applies its update on arrival, so the final state
reflects whichever response completes last (completion order, not request
order). -/
theorem part000_last_completion_wins (showLoader : Bool) (l : List FetchOutcome)
    (d : WeatherData) (s : WeatherState) :
    (part000_applyArrivals showLoader (l ++ [FetchOutcome.ok d]) s).weatherData = some d ∧
    (part000_applyArrivals showLoader (l ++ [FetchOutcome.ok d]) s).error = none := by
  unfold part000_applyArrivals
  rw [List.foldl_append]
  constructor <;> (cases showLoader <;> rfl)

/-- C3 counterexample: the part_002 revision of fetchWeatherData (324-339)
performs the request with no timeout guard at all, and maps every failure —
including any that a timeout would produce — to the single message
`Failed to fetch`, so no distinct timeout error exists in that revision. -/
theorem part002_no_timeout_guard_counterexample :
    part002TimeoutGuardMs = none ∧
    (part002_fetchWeatherData (FetchOutcome.networkError "timeout") appInitialState).error =
      (part002_fetchWeatherData (FetchOutcome.httpError 500) appInitialState).error ∧
    (part002_fetchWeatherData (FetchOutcome.networkError "timeout") appInitialState).error =
      some "Failed to fetch" := by
  decide

/-- C3 amended: only the App.js and part_001 revisions run the weather fetch
under a timeout guard (an 8000 ms abort timer) and report a timeout message
distinct from the network-failure message; the part_000, part_002 and
Homepage revisions fetch with no guard, and part_002 reports one
undistinguished failure message. -/
theorem timeout_guard_by_revision (s : WeatherState) (m : String) :
    appTimeoutGuardMs = some 8000 ∧
    part001TimeoutGuardMs = some 8000 ∧
    (appFetchWeatherData AppOutcome.abortError s).error = some appTimeoutMessage ∧
    (appFetchWeatherData (AppOutcome.networkError m) s).error =
      some ("Connection failed: " ++ m) ∧
    decide (appTimeoutMessage = "Connection failed: Failed to fetch") = false ∧
    part000TimeoutGuardMs = none ∧
    part002TimeoutGuardMs = none ∧
    homepageTimeoutGuardMs = none ∧
    (part002_fetchWeatherData (FetchOutcome.networkError m) s).error =
      some "Failed to fetch" :=
  ⟨rfl, rfl, rfl, rfl, by decide, rfl, rfl, rfl, rfl⟩

/-- C4 counterexample: App.js line 563 `setInterval(fetchWeatherData, 30000)`
invokes fetchWeatherData with no silent flag, and its first statement
(line 532) is `setLoading(true)` — modelled by `appFetchStart` — so in that
revision a timer-initiated refresh does set the loading indicator. -/
theorem app_interval_tick_sets_loading_counterexample :
    (appFetchStart { weatherData := some { temperature := 24, humidity := 60 },
                     loading := false, error := none }).loading = true ∧
    appPollIntervalMs = 30000 := by
  decide

/-- C4 amended: the interval of part_000 (the revision whose timer is gated
on a resource key) ticks silently — the tick runs with showLoader = false
and never sets loading to true (the resulting loading flag is the previous
one, forced to false only on the no-request development branch) — while the
App.js interval's refresh begins by setting loading to true. -/
theorem part000_silent_tick_loading (stations : List Station) (sid : String)
    (o : FetchOutcome) (s : WeatherState) :
    ((part000_intervalTick stations sid o s).1).loading =
      (s.loading && !(part000_isDevStation stations sid)) ∧
    (appFetchStart s).loading = true := by
  constructor
  · unfold part000_intervalTick part000_fetchWeatherData part000_fetchStart
    by_cases hd : part000_isDevStation stations sid = true
    · simp [hd]
    · have hd2 : part000_isDevStation stations sid = false := by
        cases hh : part000_isDevStation stations sid
        · rfl
        · exact absurd hh hd
      cases o <;> simp [hd2, part000_fetchComplete]
  · rfl

/-- C5: for any sequence of interval-effect runs of part_000 (each re-run
performs the previous cleanup before the new setup, as React guarantees),
at most one interval timer is ever live, every live timer polls the most
recently set station key, and teardown leaves no live timer. -/
theorem part000_timer_lifecycle (stations : List Station)
    (keys : List (Option String)) (k : Option String)
    (h : keys.getLast? = some k) :
    (runEffects stations keys).timers.length ≤ 1 ∧
    ((runEffects stations keys).timers.all fun p => some p.2 == k) = true ∧
    (timerTeardown (runEffects stations keys)).timers = [] := by
  have hspec := foldl_effectRun_spec stations keys timerInit k (Or.inl rfl) h
  refine ⟨timerInv_length _ hspec.1, ?_, effectCleanup_timers_eq_nil _ hspec.1⟩
  rw [List.all_eq_true]
  intro p hp
  rw [beq_iff_eq]
  exact (hspec.2 p hp).symm

/-- Witness for C5: two successive effect runs for the active station key. -/
theorem part000_timer_lifecycle_witness :
    (runEffects weatherStations [some "weather-v2", some "weather-v2"]).timers.length ≤ 1 ∧
    ((runEffects weatherStations [some "weather-v2", some "weather-v2"]).timers.all
        fun p => some p.2 == some "weather-v2") = true ∧
    (timerTeardown (runEffects weatherStations
        [some "weather-v2", some "weather-v2"])).timers = [] :=
  part000_timer_lifecycle weatherStations [some "weather-v2", some "weather-v2"]
    (some "weather-v2") (by rfl)

/-- C6 counterexample: the initial App.js state (reachable before any fetch
has been initiated — the empty event trace) already has loading = true,
because line 521 initializes it with `useState(true)`; this refutes the
claim that loading is false whenever no request has been initiated. -/
theorem app_initial_loading_counterexample :
    appLoadingAfter [] = true ∧ appInitialState.loading = true := by
  decide

/-- C6 amended: the App.js loading flag is true exactly when either no fetch
event has happened yet (it is initialized to true before the first request)
or the most recent fetch event is a request initiation — after the last
initiated request completes it is false. -/
theorem app_loading_characterization (tr : List AppFetchEvent) :
    appLoadingAfter tr = true ↔
      (tr = [] ∨ tr.getLast? = some AppFetchEvent.start) := by
  induction tr using List.reverseRecOn with
  | nil => simp [appLoadingAfter]
  | append_singleton l e ih =>
    rw [appLoadingAfter, List.foldl_append]
    cases e with
    | start =>
      simp [appLoadingStep, getLast?_append_singleton]
    | complete o =>
      simp [appLoadingStep, getLast?_append_singleton]

/-- Witness for C6: a trace ending in a request initiation has loading true. -/
theorem app_loading_characterization_witness :
    appLoadingAfter [AppFetchEvent.start] = true :=
  (app_loading_characterization [AppFetchEvent.start]).mpr (Or.inr (by rfl))

/-- C7 counterexample: the App.js success path stamps no timestamp — the
code keeps no lastUpdatedAt anywhere — so after a successful refresh at
time 5 the lastUpdatedAt of the spec's FetchState is still none, differing
from the spec-described transition that stamps it. -/
theorem app_success_no_timestamp_counterexample :
    (appSuccessRefresh { temperature := 24, humidity := 60 } 5
        { data := none, loading := true, error := none,
          lastUpdatedAt := none }).lastUpdatedAt = none ∧
    (specSuccessRefresh { temperature := 24, humidity := 60 } 5
        { data := none, loading := true, error := none,
          lastUpdatedAt := none }).lastUpdatedAt = some 5 ∧
    decide (appSuccessRefresh { temperature := 24, humidity := 60 } 5
        { data := none, loading := true, error := none, lastUpdatedAt := none } =
      specSuccessRefresh { temperature := 24, humidity := 60 } 5
        { data := none, loading := true, error := none, lastUpdatedAt := none })
      = false := by
  decide

/-- C7 amended: a successful App.js refresh replaces the data with the newly
parsed response and clears the error (and the loader), but stamps no
lastUpdatedAt — the code maintains no such field, so it is left unchanged. -/
theorem app_success_refresh_updates (d : WeatherData) (now : Nat)
    (s : FetchState) (p : WeatherState) :
    (appSuccessRefresh d now s).data = some d ∧
    (appSuccessRefresh d now s).error = none ∧
    (appSuccessRefresh d now s).loading = false ∧
    (appSuccessRefresh d now s).lastUpdatedAt = s.lastUpdatedAt ∧
    (appFetchWeatherData (AppOutcome.ok d) p).weatherData = some d ∧
    (appFetchWeatherData (AppOutcome.ok d) p).error = none :=
  ⟨rfl, rfl, rfl, rfl, rfl, rfl⟩

/-- C8 counterexample: with stale data still held and a non-null error,
App.js WeatherDisplay takes its `error || !data` branch and renders only the
error banner — the last-known data is absent from the rendered view,
refuting "shows the last-known data together with an error banner". -/
theorem weather_display_error_drops_data_counterexample :
    weatherDisplay (some { temperature := 24, humidity := 60 }) false
        (some "Connection failed: Failed to fetch") =
      WeatherView.errorView "Connection failed: Failed to fetch" ∧
    viewShowsData (weatherDisplay (some { temperature := 24, humidity := 60 }) false
        (some "Connection failed: Failed to fetch")) = false := by
  decide

/-- C8 amended: a failure state degrades to an error banner without
crashing — WeatherDisplay always yields the banner carrying the error
message when error is non-null, even while stale data is held (the stale
data is not rendered alongside it); with no error the data is rendered. -/
theorem weather_display_error_banner (d : WeatherData) (e : String) :
    weatherDisplay (some d) false (some e) = WeatherView.errorView e ∧
    viewShowsData (weatherDisplay (some d) false (some e)) = false ∧
    weatherDisplay (some d) false none = WeatherView.dataView d :=
  ⟨rfl, rfl, rfl⟩

/-- C9: calling part_000 fetchWeatherData with a station id whose descriptor
has status development performs no HTTP request (second component false) and
deterministically yields data = none, loading = false and the fixed
under-development message, for every prior state, loader flag and would-be
network outcome. -/
theorem part000_dev_station_no_request (stations : List Station) (sid : String)
    (showLoader : Bool) (o : FetchOutcome) (s : WeatherState)
    (h : part000_isDevStation stations sid = true) :
    part000_fetchWeatherData stations sid showLoader o s =
      ({ weatherData := none, loading := false,
         error := some part000_devMessage }, false) := by
  unfold part000_fetchWeatherData part000_fetchStart
  simp [h]

/-- Witness for C9: the development station of the program's station list. -/
theorem part000_dev_station_no_request_witness :
    part000_fetchWeatherData weatherStations "station-Airport Road" true
        (FetchOutcome.ok { temperature := 1, humidity := 2 }) appInitialState =
      ({ weatherData := none, loading := false,
         error := some part000_devMessage }, false) :=
  part000_dev_station_no_request weatherStations "station-Airport Road" true
    (FetchOutcome.ok { temperature := 1, humidity := 2 }) appInitialState (by decide)

/-- C10: validateAndSubmit submits the form data exactly when the email is
non-empty and passes the unanchored pattern test, both dates are non-empty,
and the start date is not later than the end date (Date comparison, false on
invalid dates, as in the source); otherwise no submission occurs and the
stored errors object is exactly validateForm's non-empty error map. -/
theorem form_validate_submit_iff (f : FormData) :
    ((validateAndSubmitModel f).2 = some f ↔
      (f.email ≠ "" ∧ emailRegexTest f.email = true ∧ f.start_date ≠ "" ∧
       f.end_date ≠ "" ∧
       jsDateGt (jsDateValue f.start_date) (jsDateValue f.end_date) = false)) ∧
    (validateAndSubmitModel f).1 = validateForm f ∧
    ((validateAndSubmitModel f).2 = none ↔ validateForm f ≠ []) := by
  have hempty : validateForm f = [] ↔
      (f.email ≠ "" ∧ emailRegexTest f.email = true ∧ f.start_date ≠ "" ∧
       f.end_date ≠ "" ∧
       jsDateGt (jsDateValue f.start_date) (jsDateValue f.end_date) = false) := by
    unfold validateForm
    split_ifs with h1 h2 h3 h4 h5 <;> simp_all
  by_cases hl : (validateForm f).length = 0
  · have hnil : validateForm f = [] := List.length_eq_zero.mp hl
    refine ⟨?_, ?_, ?_⟩
    · simp [validateAndSubmitModel, hl, hempty.mp hnil]
    · simp [validateAndSubmitModel, hl]
    · simp [validateAndSubmitModel, hl, hnil]
  · have hne : validateForm f ≠ [] := fun hcon => hl (by simp [hcon])
    refine ⟨?_, ?_, ?_⟩
    · simp only [validateAndSubmitModel, if_neg hl]
      constructor
      · intro hcon
        exact absurd hcon (by simp)
      · intro hc
        exact absurd (hempty.mpr hc) hne
    · simp [validateAndSubmitModel, hl]
    · simp [validateAndSubmitModel, hl, hne]

/-- Witness for C10: a well-formed input is submitted. -/
theorem form_validate_submit_iff_witness :
    (validateAndSubmitModel sampleFormData).2 = some sampleFormData :=
  (form_validate_submit_iff sampleFormData).1.mpr (by decide)
